import Mathlib

/-!
Verification of the order lifecycle and checkout engine of the
minimallBackend repository (FastAPI + MySQL e-commerce backend).

Shallow embedding conventions:
- database tables become lists of rows or stock-count functions inside a
  `DbState` record; each request handler or model method becomes a Lean
  function from a state to a result and a new state;
- a handler that commits once and rolls back on any exception is embedded
  as a function whose failure results return the input state unchanged;
- MySQL DECIMAL values and Python Decimal values are embedded as exact
  rationals; where the source computes money with Python binary floats
  (CheckoutModel.create_order) the embedding idealises that arithmetic to
  exact rationals, and the discrepancy is recorded separately;
- row timestamps (NOW()) and the random part of order numbers are
  nondeterministic inputs; they are either omitted (timestamps play no
  role in the claims) or passed in as explicit parameters.
-/

/-- Line item of the cart_items table: cart reference, product reference,
optional variant reference, quantity, and the price captured at add time. -/
structure CartItem where
  cartId : Nat
  productId : Nat
  variantId : Option Nat
  quantity : Nat
  priceAtTime : ℚ
deriving DecidableEq

/-- Static catalog data read through joins: products.seller_id, product and
variant names, SKUs.  These columns are never written by the order engine. -/
structure Catalog where
  sellerOf : Nat → Nat
  productName : Nat → String
  productSku : Nat → String
  variantName : Nat → String
  variantValue : Nat → String
  variantSku : Nat → Option String

/-- Stock columns: products.quantity_in_stock and
product_variants.quantity_in_stock, keyed by row id. -/
structure Stocks where
  product : Nat → Int
  variant : Nat → Int

/-- Row of the orders table (the columns the order engine reads or writes;
timestamp columns are omitted, no claim mentions them). -/
structure OrderRow where
  id : Nat
  userId : Nat
  orderNumber : String
  status : String
  paymentStatus : String
  paymentMethod : String
  deliveryOption : String
  subtotal : ℚ
  tax : ℚ
  shippingFee : ℚ
  marketplaceFee : ℚ
  discount : ℚ
  total : ℚ
  trackingNumber : Option String
deriving DecidableEq

/-- Row of the order_items table: immutable line item snapshot. -/
structure OrderItemRow where
  orderId : Nat
  productId : Nat
  variantId : Option Nat
  productName : String
  variantName : String
  variantValue : String
  sku : String
  quantity : Nat
  price : ℚ
  subtotal : ℚ
deriving DecidableEq

/-- Row of the order_status_history table (append-only audit log). -/
structure HistoryRow where
  orderId : Nat
  status : String
  notes : String
  createdBy : Option Nat
deriving DecidableEq

/-- Row of the payment_transactions table. -/
structure PaymentRow where
  orderId : Nat
  paymentMethod : String
  amount : ℚ
  status : String
deriving DecidableEq

/-- Mutable database state seen by the order engine.  cartOf models the
cart table (at most one active cart per user, per the schema). -/
structure DbState where
  cartOf : Nat → Option Nat
  cartItems : List CartItem
  stocks : Stocks
  orders : List OrderRow
  orderItems : List OrderItemRow
  statusHistory : List HistoryRow
  payments : List PaymentRow

/-- Valid status flow list from order_route.validate_status_transition. -/
def statusOrder : List String := ["pending", "processing", "shipped", "delivered"]

/-- Embeds order_route.validate_status_transition: returns the pair
(is_valid, error_message) exactly as the Python helper computes it. -/
def validate_status_transition (currentStatus newStatus : String) : Bool × String :=
  if currentStatus = "cancelled" then
    (false, "Cannot update cancelled order")
  else if currentStatus = "delivered" ∧ newStatus ≠ "cancelled" then
    (false, "Cannot update delivered order")
  else if newStatus = "cancelled" ∧ currentStatus ∉ ["pending", "processing"] then
    (false, "Order can only be cancelled if pending or processing")
  else if newStatus ∈ statusOrder ∧ currentStatus ∈ statusOrder then
    let currentIdx := statusOrder.indexOf currentStatus
    let newIdx := statusOrder.indexOf newStatus
    if newIdx < currentIdx ∧ newStatus ≠ "pending" then
      (false, "Cannot move from " ++ currentStatus ++ " back to " ++ newStatus)
    else
      (true, "")
  else
    (true, "")

example : (validate_status_transition "processing" "pending").1 = true := by decide
example : (validate_status_transition "shipped" "pending").1 = true := by decide
example : (validate_status_transition "shipped" "processing").1 = false := by decide
example : (validate_status_transition "delivered" "cancelled").1 = false := by decide
example : (validate_status_transition "cancelled" "processing").1 = false := by decide
example : (validate_status_transition "pending" "cancelled").1 = true := by decide
example : (validate_status_transition "processing" "cancelled").1 = true := by decide
example : (validate_status_transition "delivered" "delivered").1 = false := by decide
example : (validate_status_transition "pending" "delivered").1 = true := by decide

/-- Embeds checkout_routes.calculate_shipping_fee.  The fee table is
standard 50, express 150, same_day 250, pickup 0 with default 50, and
shipping is waived when subtotal >= 5000 and the option is not pickup. -/
def calculate_shipping_fee (deliveryOption : String) (subtotal : ℚ) : ℚ :=
  if 5000 ≤ subtotal ∧ deliveryOption ≠ "pickup" then 0
  else if deliveryOption = "standard" then 50
  else if deliveryOption = "express" then 150
  else if deliveryOption = "same_day" then 250
  else if deliveryOption = "pickup" then 0
  else 50

/-- Embeds the shipping_fees dict of CheckoutModel.create_order:
standard 50, express 150, same_day 300, pickup 0, default 50; this path
has no free-shipping threshold. -/
def model_shipping_fee (deliveryOption : String) : ℚ :=
  if deliveryOption = "standard" then 50
  else if deliveryOption = "express" then 150
  else if deliveryOption = "same_day" then 300
  else if deliveryOption = "pickup" then 0
  else 50

/-- Sum of price_at_time * quantity over cart items, as both checkout
implementations compute the order subtotal. -/
def cart_subtotal (items : List CartItem) : ℚ :=
  (items.map (fun it => it.priceAtTime * (it.quantity : ℚ))).sum

/-- Cost breakdown computed by checkout_routes.process_checkout. -/
structure Totals where
  subtotal : ℚ
  tax : ℚ
  marketplaceFee : ℚ
  shippingFee : ℚ
  discount : ℚ
  total : ℚ
deriving DecidableEq

/-- Embeds the pricing block of checkout_routes.process_checkout
(tax = subtotal * 0.12, marketplace_fee = subtotal * 0.02, discount 0,
total = subtotal + tax + marketplace_fee + shipping_fee - discount). -/
def compute_totals (items : List CartItem) (deliveryOption : String) : Totals :=
  let subtotal := cart_subtotal items
  let tax := subtotal * (12 / 100)
  let marketplaceFee := subtotal * (2 / 100)
  let shippingFee := calculate_shipping_fee deliveryOption subtotal
  let discount : ℚ := 0
  { subtotal := subtotal
    tax := tax
    marketplaceFee := marketplaceFee
    shippingFee := shippingFee
    discount := discount
    total := subtotal + tax + marketplaceFee + shippingFee - discount }

example :
    compute_totals [⟨1, 1, none, 2, 100⟩] "standard" =
      ⟨200, 24, 4, 50, 0, 278⟩ := by
  norm_num [compute_totals, cart_subtotal, calculate_shipping_fee]

example : (compute_totals [⟨1, 1, none, 50, 100⟩] "standard").shippingFee = 0 := by
  norm_num [compute_totals, cart_subtotal, calculate_shipping_fee]
  decide

/-- Domain failures of the two checkout implementations.  The source
surfaces these as a success=False message (CheckoutModel) or as an
HTTPException with status 404 / 400 (process_checkout); the payload of
insufficientStock carries the product name, available and requested
quantities that the source interpolates into its message string. -/
inductive CheckoutErr where
  | cartNotFound
  | emptyCart
  | insufficientStock (productName : String) (available : Int) (requested : Nat)
deriving DecidableEq

/-- Stock column consulted by the availability check of
CheckoutModel.create_order: the variant stock when a variant is selected,
else the product stock. -/
def available_stock (st : Stocks) (it : CartItem) : Int :=
  match it.variantId with
  | some v => st.variant v
  | none => st.product it.productId

/-- One iteration of the stock-update loop of CheckoutModel.create_order:
an unconditional UPDATE that decrements the variant row when a variant is
selected, else the product row. -/
def deduct_stock_item (st : Stocks) (it : CartItem) : Stocks :=
  match it.variantId with
  | some v =>
      { st with variant := fun q => if q = v then st.variant q - (it.quantity : Int) else st.variant q }
  | none =>
      { st with product := fun q => if q = it.productId then st.product q - (it.quantity : Int) else st.product q }

/-- Stock-update loop of CheckoutModel.create_order over all cart items. -/
def deduct_stock (st : Stocks) (items : List CartItem) : Stocks :=
  items.foldl deduct_stock_item st

/-- Cart query of CheckoutModel.create_order: cart_items joined to the
cart of the given user (empty when the user has no cart row). -/
def cart_items_for (userId : Nat) (s : DbState) : List CartItem :=
  match s.cartOf userId with
  | none => []
  | some cid => s.cartItems.filter (fun ci => decide (ci.cartId = cid))

/-- Order item snapshot as inserted by CheckoutModel.create_order
(sku always taken from the product row; variant name and value are NULL
for items without a variant). -/
def mk_order_item_model (cat : Catalog) (oid : Nat) (it : CartItem) : OrderItemRow :=
  { orderId := oid
    productId := it.productId
    variantId := it.variantId
    productName := cat.productName it.productId
    variantName := (it.variantId.map cat.variantName).getD ""
    variantValue := (it.variantId.map cat.variantValue).getD ""
    sku := cat.productSku it.productId
    quantity := it.quantity
    price := it.priceAtTime
    subtotal := it.priceAtTime * (it.quantity : ℚ) }

/-- Order item snapshot as inserted by checkout_routes.process_checkout
(sku is the variant sku when present, else the product sku). -/
def mk_order_item_route (cat : Catalog) (oid : Nat) (it : CartItem) : OrderItemRow :=
  { orderId := oid
    productId := it.productId
    variantId := it.variantId
    productName := cat.productName it.productId
    variantName := (it.variantId.map cat.variantName).getD ""
    variantValue := (it.variantId.map cat.variantValue).getD ""
    sku := match it.variantId.bind cat.variantSku with
           | some sk => sk
           | none => cat.productSku it.productId
    quantity := it.quantity
    price := it.priceAtTime
    subtotal := it.priceAtTime * (it.quantity : ℚ) }

/-- Modelled from the spec: the create_order MySQL stored procedure is not
part of the repository sources (only its CALL site in
CheckoutModel.create_order is).  Per spec section 4.3 the order repository
persists the Order row and the initial "pending" OrderStatusHistory row and
returns the generated order id and human-readable order number; the
generated order number is passed in here as a parameter because its random
suffix is nondeterministic.  The shipping-address snapshot columns are not
modelled; no claim mentions them. -/
def stored_proc_create_order (oid userId : Nat)
    (orderNumber paymentMethod deliveryOption : String)
    (subtotal tax shippingFee marketplaceFee total : ℚ) : OrderRow × HistoryRow :=
  ({ id := oid
     userId := userId
     orderNumber := orderNumber
     status := "pending"
     paymentStatus := "pending"
     paymentMethod := paymentMethod
     deliveryOption := deliveryOption
     subtotal := subtotal
     tax := tax
     shippingFee := shippingFee
     marketplaceFee := marketplaceFee
     discount := 0
     total := total
     trackingNumber := none },
   { orderId := oid, status := "pending", notes := "Order created", createdBy := none })

/-- Success payload returned by CheckoutModel.create_order. -/
structure CreateOrderOk where
  orderId : Nat
  orderNumber : String
  total : ℚ
  subtotal : ℚ
  tax : ℚ
  shippingFee : ℚ
  marketplaceFee : ℚ
deriving DecidableEq

/-- Embeds CheckoutModel.create_order.  The whole method body runs on one
connection with a single COMMIT at the end and a ROLLBACK on any
exception, so every failure result carries the input state unchanged.
The source computes the money amounts with Python binary floats; they are
idealised here as exact rationals (see the C9 record). -/
def create_order (cat : Catalog) (userId : Nat)
    (paymentMethod deliveryOption orderNumber : String) (s : DbState) :
    Except CheckoutErr CreateOrderOk × DbState :=
  let items := cart_items_for userId s
  if items.isEmpty then
    (Except.error CheckoutErr.emptyCart, s)
  else
    match items.find? (fun it => decide (available_stock s.stocks it < (it.quantity : Int))) with
    | some it =>
        (Except.error (CheckoutErr.insufficientStock (cat.productName it.productId)
            (available_stock s.stocks it) it.quantity), s)
    | none =>
        let subtotal := cart_subtotal items
        let tax := subtotal * (12 / 100)
        let shippingFee := model_shipping_fee deliveryOption
        let marketplaceFee := subtotal * (2 / 100)
        let total := subtotal + tax + shippingFee + marketplaceFee
        let oid := s.orders.length + 1
        let proc := stored_proc_create_order oid userId orderNumber paymentMethod
          deliveryOption subtotal tax shippingFee marketplaceFee total
        let itemRows := items.map (mk_order_item_model cat oid)
        let stocks2 := deduct_stock s.stocks items
        let cartItems2 :=
          match s.cartOf userId with
          | some cid => s.cartItems.filter (fun ci => decide (ci.cartId ≠ cid))
          | none => s.cartItems
        let payRow : PaymentRow :=
          { orderId := oid, paymentMethod := paymentMethod, amount := total, status := "pending" }
        (Except.ok { orderId := oid, orderNumber := orderNumber, total := total,
                     subtotal := subtotal, tax := tax, shippingFee := shippingFee,
                     marketplaceFee := marketplaceFee },
         { s with orders := s.orders ++ [proc.1]
                  orderItems := s.orderItems ++ itemRows
                  stocks := stocks2
                  cartItems := cartItems2
                  statusHistory := s.statusHistory ++ [proc.2]
                  payments := s.payments ++ [payRow] })

/-- Success payload returned by checkout_routes.process_checkout (the
OrderResponse fields the claims mention). -/
structure ProcessOk where
  orderId : Nat
  orderNumber : String
  totals : Totals
deriving DecidableEq

/-- Embeds checkout_routes.process_checkout.  The handler opens one
connection, performs its INSERTs and the cart DELETE, and commits once,
rolling back on any exception; failure results therefore carry the input
state unchanged.  Faithfully to the source, the handler never checks or
decrements any stock column and never inserts a payment_transactions row. -/
def process_checkout (cat : Catalog) (userId : Nat)
    (paymentMethod deliveryOption orderNumber : String) (s : DbState) :
    Except CheckoutErr ProcessOk × DbState :=
  match s.cartOf userId with
  | none => (Except.error CheckoutErr.cartNotFound, s)
  | some cid =>
      let items := s.cartItems.filter (fun ci => decide (ci.cartId = cid))
      if items.isEmpty then
        (Except.error CheckoutErr.emptyCart, s)
      else
        let t := compute_totals items deliveryOption
        let oid := s.orders.length + 1
        let orderRow : OrderRow :=
          { id := oid, userId := userId, orderNumber := orderNumber,
            status := "pending", paymentStatus := "pending",
            paymentMethod := paymentMethod, deliveryOption := deliveryOption,
            subtotal := t.subtotal, tax := t.tax, shippingFee := t.shippingFee,
            marketplaceFee := t.marketplaceFee, discount := t.discount,
            total := t.total, trackingNumber := none }
        let itemRows := items.map (mk_order_item_route cat oid)
        let histRow : HistoryRow :=
          { orderId := oid, status := "pending", notes := "Order created", createdBy := none }
        (Except.ok { orderId := oid, orderNumber := orderNumber, totals := t },
         { s with orders := s.orders ++ [orderRow]
                  orderItems := s.orderItems ++ itemRows
                  statusHistory := s.statusHistory ++ [histRow]
                  cartItems := s.cartItems.filter (fun ci => decide (ci.cartId ≠ cid)) })

/-- Authenticated principal as supplied by the auth collaborator
(fields read by order_route.verify_seller_access). -/
structure CurrentUser where
  id : Nat
  role : String
  is_seller : Bool
  seller_status : String

/-- Embeds order_route.verify_seller_access: an active or approved seller,
or an admin. -/
def verify_seller_access (cu : CurrentUser) : Bool :=
  (cu.is_seller && decide (cu.seller_status ∈ (["active", "approved"] : List String)))
    || decide (cu.role = "admin")

/-- Embeds OrderModel.seller_has_items_in_order: the seller owns the
product of at least one order_items row of this order. -/
def seller_has_items_in_order (cat : Catalog) (orderId sellerId : Nat) (s : DbState) : Bool :=
  s.orderItems.any (fun oi =>
    decide (oi.orderId = orderId) && decide (cat.sellerOf oi.productId = sellerId))

/-- Embeds OrderModel.update_order_status: sets the status column of the
matching orders row (and the tracking number for a shipped transition when
one is supplied) and reports whether a row was updated.  The method opens
its own connection and commits on its own; timestamp columns are omitted. -/
def update_order_status (orderId : Nat) (newStatus : String)
    (trackingNumber : Option String) (s : DbState) : Bool × DbState :=
  (s.orders.any (fun o => decide (o.id = orderId)),
   { s with orders := s.orders.map (fun o =>
       if o.id = orderId then
         { o with status := newStatus,
                  trackingNumber :=
                    if newStatus = "shipped" then
                      match trackingNumber with
                      | some tn => some tn
                      | none => o.trackingNumber
                    else o.trackingNumber }
       else o) })

/-- Embeds OrderModel.add_status_history: INSERT-only append to
order_status_history, committed on its own connection. -/
def add_status_history (orderId : Nat) (st notes : String)
    (createdBy : Option Nat) (s : DbState) : DbState :=
  { s with statusHistory := s.statusHistory ++
      [{ orderId := orderId, status := st, notes := notes, createdBy := createdBy }] }

/-- order_items rows of one order, as selected by the two UPDATE ... JOIN
statements of OrderModel.restore_inventory_for_order. -/
def order_items_of (orderId : Nat) (s : DbState) : List OrderItemRow :=
  s.orderItems.filter (fun oi => decide (oi.orderId = orderId))

/-- First UPDATE of OrderModel.restore_inventory_for_order: for every
order item of the order whose product belongs to the given seller, add the
item quantity back to the product row (note: with no variant_id filter,
this also runs for items that were deducted at variant level).  Embedded
as a fold over the rows, which matches the set-based SQL UPDATE whenever
the product ids of the rows are distinct (MySQL updates each matched row
once). -/
def restore_products_pass (cat : Catalog) (sellerId : Nat)
    (rows : List OrderItemRow) (st : Stocks) : Stocks :=
  rows.foldl (fun acc oi =>
    if cat.sellerOf oi.productId = sellerId then
      { acc with product := fun q =>
          if q = oi.productId then acc.product q + (oi.quantity : Int) else acc.product q }
    else acc) st

/-- Second UPDATE of OrderModel.restore_inventory_for_order: for every
order item of the order that has a variant and whose product belongs to
the given seller, add the item quantity back to the variant row.  Same
fold-for-UPDATE convention as restore_products_pass. -/
def restore_variants_pass (cat : Catalog) (sellerId : Nat)
    (rows : List OrderItemRow) (st : Stocks) : Stocks :=
  rows.foldl (fun acc oi =>
    match oi.variantId with
    | some v =>
        if cat.sellerOf oi.productId = sellerId then
          { acc with variant := fun q =>
              if q = v then acc.variant q + (oi.quantity : Int) else acc.variant q }
        else acc
    | none => acc) st

/-- Both stock-restoring UPDATEs of OrderModel.restore_inventory_for_order
applied to the stock columns. -/
def restore_rows (cat : Catalog) (sellerId : Nat)
    (rows : List OrderItemRow) (st : Stocks) : Stocks :=
  restore_variants_pass cat sellerId rows (restore_products_pass cat sellerId rows st)

/-- Embeds OrderModel.restore_inventory_for_order. -/
def restore_inventory_for_order (cat : Catalog) (orderId sellerId : Nat)
    (s : DbState) : DbState :=
  { s with stocks := restore_rows cat sellerId (order_items_of orderId s) s.stocks }

/-- HTTP-level failures of the seller order-status route. -/
inductive RouteErr where
  | forbidden (detail : String)
  | badRequest (detail : String)
  | notFound (detail : String)
  | serverError (detail : String)
deriving DecidableEq

/-- Request body of PATCH /seller/orders/(order_id)/status. -/
structure OrderStatusPatch where
  status : String
  trackingNumber : Option String
  notes : Option String

/-- Status whitelist of order_route.update_order_status. -/
def valid_statuses : List String :=
  ["pending", "processing", "shipped", "delivered", "cancelled"]

/-- Embeds the PATCH /seller/orders/(order_id)/status handler
order_route.update_order_status: seller access check, ownership check,
status whitelist, transition validation, status update, history append,
and inventory restore when the new status is cancelled.  Each model call
commits on its own connection, faithful to the source. -/
def update_order_status_route (cat : Catalog) (currentUser : CurrentUser)
    (orderId : Nat) (data : OrderStatusPatch) (s : DbState) :
    Except RouteErr String × DbState :=
  if ¬ verify_seller_access currentUser then
    (Except.error (RouteErr.forbidden "Seller access required"), s)
  else
    let sellerId := currentUser.id
    if ¬ seller_has_items_in_order cat orderId sellerId s then
      (Except.error (RouteErr.forbidden "Access denied - no items in this order"), s)
    else if data.status ∉ valid_statuses then
      (Except.error (RouteErr.badRequest "Invalid status"), s)
    else
      match s.orders.find? (fun o => decide (o.id = orderId)) with
      | none => (Except.error (RouteErr.notFound "Order not found"), s)
      | some order =>
          let v := validate_status_transition order.status data.status
          if v.1 = false then
            (Except.error (RouteErr.badRequest v.2), s)
          else
            let upd := update_order_status orderId data.status data.trackingNumber s
            if upd.1 = false then
              (Except.error (RouteErr.serverError "Failed to update order status in database"), upd.2)
            else
              let historyNotes :=
                (match data.notes with
                 | some n => n
                 | none => "Status changed to " ++ data.status ++ " by seller")
                ++ (match data.trackingNumber with
                    | some tn => if data.status = "shipped" then " - Tracking: " ++ tn else ""
                    | none => "")
              let s2 := add_status_history orderId data.status historyNotes (some sellerId) upd.2
              let s3 :=
                if data.status = "cancelled" then
                  restore_inventory_for_order cat orderId sellerId s2
                else s2
              (Except.ok ("Order status updated to " ++ data.status), s3)

/-- Helper: the validator accepts a transition to cancelled exactly from
pending or processing. -/
lemma cancel_valid_iff (st : String) :
    (validate_status_transition st "cancelled").1 = true ↔
      st = "pending" ∨ st = "processing" := by
  unfold validate_status_transition
  split_ifs with h1 h2 h3 h4 <;> simp_all [statusOrder]
  tauto

/-- Helper: a state transition validated on the first matching order. -/
lemma find_order_mem {s : DbState} {oid : Nat} {o : OrderRow}
    (h : s.orders.find? (fun o => decide (o.id = oid)) = some o) :
    o ∈ s.orders ∧ o.id = oid := by
  refine ⟨List.mem_of_find?_eq_some h, ?_⟩
  have := List.find?_some h
  simpa using this

/-- C6: a requested transition to cancelled is accepted by the status
validator exactly when the current status is pending or processing (so
cancelling a cancelled, shipped or delivered order is rejected with an
error), and an accepted cancellation through the PATCH status route
applies the inventory restore for the order, scoped to the acting seller. -/
theorem cancel_iff_pending_or_processing_and_restores :
    (∀ st : String, (validate_status_transition st "cancelled").1 = true ↔
        st = "pending" ∨ st = "processing")
    ∧ ∀ (cat : Catalog) (cu : CurrentUser) (oid : Nat) (tn nts : Option String)
        (s : DbState) (out : String) (s' : DbState),
        update_order_status_route cat cu oid ⟨"cancelled", tn, nts⟩ s =
          (Except.ok out, s') →
        (∃ o, o ∈ s.orders ∧ o.id = oid ∧
            (o.status = "pending" ∨ o.status = "processing"))
        ∧ s'.stocks = restore_rows cat cu.id (order_items_of oid s) s.stocks := by
  refine ⟨cancel_valid_iff, ?_⟩
  intro cat cu oid tn nts s out s' h
  unfold update_order_status_route at h
  dsimp only at h
  simp only [String.reduceEq, reduceIte] at h
  rcases hfind : s.orders.find? (fun o => decide (o.id = oid)) with _ | o <;>
    rw [hfind] at h
  · split_ifs at h <;> simp at h
  · split_ifs at h with hacc hitems hst hupd <;> try simp at h
    · split_ifs at h <;> simp at h
    · split_ifs at h with hvv
      · simp at h
      rw [Prod.mk.injEq] at h
      obtain ⟨hout, hs⟩ := h
      obtain ⟨ho_mem, ho_id⟩ := find_order_mem hfind
      refine ⟨⟨o, ho_mem, ho_id, ?_⟩, ?_⟩
      · exact (cancel_valid_iff o.status).1 (by simpa using hvv)
      · subst hs
        simp [restore_inventory_for_order, add_status_history, update_order_status,
          order_items_of]

/-- Catalog fixture for the cancellation witness: every product belongs to
seller 5. -/
def catC6 : Catalog :=
  { sellerOf := fun _ => 5, productName := fun _ => "P", productSku := fun _ => "S",
    variantName := fun _ => "V", variantValue := fun _ => "X", variantSku := fun _ => none }

/-- Acting user fixture for the cancellation witness: an active seller
with id 5. -/
def cuC6 : CurrentUser :=
  { id := 5, role := "user", is_seller := true, seller_status := "active" }

/-- Order row fixture: order 1 in status pending. -/
def orderC6 : OrderRow :=
  { id := 1, userId := 2, orderNumber := "A", status := "pending",
    paymentStatus := "pending", paymentMethod := "cod", deliveryOption := "standard",
    subtotal := 100, tax := 12, shippingFee := 50, marketplaceFee := 2,
    discount := 0, total := 164, trackingNumber := none }

/-- Database fixture for the cancellation witness: one pending order with
one line item of two units of product 3, and product 3 has stock 4. -/
def sC6 : DbState :=
  { cartOf := fun _ => none, cartItems := [],
    stocks := { product := fun _ => 4, variant := fun _ => 0 },
    orders := [orderC6],
    orderItems := [{ orderId := 1, productId := 3, variantId := none,
                     productName := "P", variantName := "", variantValue := "", sku := "S",
                     quantity := 2, price := 50, subtotal := 100 }],
    statusHistory := [], payments := [] }

/-- Witness for C6: on a concrete pending order, the cancellation request
is accepted and the resulting state carries the restored stocks. -/
theorem cancel_iff_pending_or_processing_and_restores_witness :
    (update_order_status_route catC6 cuC6 1 ⟨"cancelled", none, none⟩ sC6).2.stocks =
      restore_rows catC6 cuC6.id (order_items_of 1 sC6) sC6.stocks :=
  (cancel_iff_pending_or_processing_and_restores.2 catC6 cuC6 1 none none sC6
    "Order status updated to cancelled"
    (update_order_status_route catC6 cuC6 1 ⟨"cancelled", none, none⟩ sC6).2
    (by rfl)).2

/-- C7 counterexample: the validator accepts the backward transition from
processing to pending, although pending is strictly earlier than
processing in the status sequence and differs from the current status. -/
theorem backward_to_pending_accepted :
    statusOrder.indexOf "pending" < statusOrder.indexOf "processing" ∧
    "pending" ≠ "processing" ∧
    (validate_status_transition "processing" "pending").1 = true := by
  decide

/-- C7 (amended): for current and target statuses inside the sequence
pending, processing, shipped, delivered, a move to a strictly earlier
state is accepted exactly when the target is pending and the current
status is not delivered; every other backward move is rejected. -/
theorem backward_moves_rejected_except_pending (c n : String)
    (hc : c ∈ statusOrder) (hn : n ∈ statusOrder)
    (hlt : statusOrder.indexOf n < statusOrder.indexOf c) :
    (validate_status_transition c n).1 = true ↔ (n = "pending" ∧ c ≠ "delivered") := by
  simp only [statusOrder, List.mem_cons, List.not_mem_nil, or_false] at hc hn
  rcases hc with rfl | rfl | rfl | rfl <;> rcases hn with rfl | rfl | rfl | rfl <;>
    revert hlt <;> decide

/-- Witness for C7 (amended): shipped to processing is a backward move
whose target is not pending, and it is rejected. -/
theorem backward_moves_rejected_except_pending_witness :
    ("shipped" ∈ statusOrder ∧ "processing" ∈ statusOrder ∧
      statusOrder.indexOf "processing" < statusOrder.indexOf "shipped") ∧
    ((validate_status_transition "shipped" "processing").1 = true ↔
      ("processing" = "pending" ∧ "shipped" ≠ "delivered")) :=
  ⟨⟨by decide, by decide, by decide⟩,
   backward_moves_rejected_except_pending "shipped" "processing"
     (by decide) (by decide) (by decide)⟩

/-- C2: for every checkout priced by the process_checkout route, the total
equals subtotal + tax + shipping_fee + marketplace_fee - discount with
tax = 12 percent and marketplace_fee = 2 percent of the subtotal, and the
cart of two units at 100.00 with standard delivery prices to
subtotal 200.00, tax 24.00, marketplace_fee 4.00, shipping 50.00,
total 278.00. -/
theorem order_total_formula :
    (∀ (items : List CartItem) (dlv : String),
        (compute_totals items dlv).total =
          (compute_totals items dlv).subtotal + (compute_totals items dlv).tax +
            (compute_totals items dlv).shippingFee +
            (compute_totals items dlv).marketplaceFee -
            (compute_totals items dlv).discount
        ∧ (compute_totals items dlv).tax =
            (compute_totals items dlv).subtotal * (12 / 100)
        ∧ (compute_totals items dlv).marketplaceFee =
            (compute_totals items dlv).subtotal * (2 / 100))
    ∧ compute_totals [⟨1, 1, none, 2, 100⟩] "standard" = ⟨200, 24, 4, 50, 0, 278⟩ := by
  constructor
  · intro items dlv
    refine ⟨?_, rfl, rfl⟩
    simp only [compute_totals]
    ring
  · norm_num [compute_totals, cart_subtotal, calculate_shipping_fee]

/-- C8: whenever the computed subtotal reaches 5000.00 and the delivery
option is not pickup, the shipping fee of the process_checkout route is
zero. -/
theorem free_shipping_policy (dlv : String) (subtotal : ℚ)
    (h1 : 5000 ≤ subtotal) (h2 : dlv ≠ "pickup") :
    calculate_shipping_fee dlv subtotal = 0 := by
  unfold calculate_shipping_fee
  rw [if_pos ⟨h1, h2⟩]

/-- Witness for C8: fifty units at 100.00 with standard delivery reach the
threshold and ship free. -/
theorem free_shipping_policy_witness :
    5000 ≤ cart_subtotal [⟨1, 1, none, 50, 100⟩] ∧ ("standard" : String) ≠ "pickup" ∧
    calculate_shipping_fee "standard" (cart_subtotal [⟨1, 1, none, 50, 100⟩]) = 0 :=
  ⟨by norm_num [cart_subtotal], by decide,
   free_shipping_policy "standard" (cart_subtotal [⟨1, 1, none, 50, 100⟩])
     (by norm_num [cart_subtotal]) (by decide)⟩

/-- C4: a checkout for a user whose cart is missing or empty fails with
the cart-not-found or empty-cart error on both implementations, and the
failure state is the input state: no order, order-item or history rows are
written and no stock is mutated. -/
theorem empty_cart_checkout_rejected (cat : Catalog) (userId : Nat)
    (pm dlv onum : String) (s : DbState) :
    (cart_items_for userId s = [] →
      create_order cat userId pm dlv onum s = (Except.error CheckoutErr.emptyCart, s))
    ∧ (s.cartOf userId = none →
      process_checkout cat userId pm dlv onum s = (Except.error CheckoutErr.cartNotFound, s))
    ∧ (∀ cid, s.cartOf userId = some cid →
        s.cartItems.filter (fun ci => decide (ci.cartId = cid)) = [] →
        process_checkout cat userId pm dlv onum s = (Except.error CheckoutErr.emptyCart, s)) := by
  refine ⟨?_, ?_, ?_⟩
  · intro h
    unfold create_order
    rw [h]
    simp
  · intro h
    unfold process_checkout
    rw [h]
  · intro cid hcid hempty
    unfold process_checkout
    rw [hcid]
    simp [hempty]

/-- Catalog fixture for the failing-checkout witnesses. -/
def catC4 : Catalog :=
  { sellerOf := fun _ => 1, productName := fun _ => "P", productSku := fun _ => "S",
    variantName := fun _ => "V", variantValue := fun _ => "X", variantSku := fun _ => none }

/-- State fixture: user 7 has no cart row at all. -/
def sC4a : DbState :=
  { cartOf := fun _ => none, cartItems := [],
    stocks := { product := fun _ => 3, variant := fun _ => 3 },
    orders := [], orderItems := [], statusHistory := [], payments := [] }

/-- State fixture: user 7 has cart 9 with no items in it. -/
def sC4b : DbState :=
  { cartOf := fun _ => some 9, cartItems := [],
    stocks := { product := fun _ => 3, variant := fun _ => 3 },
    orders := [], orderItems := [], statusHistory := [], payments := [] }

/-- Witness for C4: both implementations reject the concrete missing and
empty carts and return the input state untouched. -/
theorem empty_cart_checkout_rejected_witness :
    create_order catC4 7 "cod" "standard" "B" sC4a = (Except.error CheckoutErr.emptyCart, sC4a)
    ∧ process_checkout catC4 7 "cod" "standard" "B" sC4a =
        (Except.error CheckoutErr.cartNotFound, sC4a)
    ∧ process_checkout catC4 7 "cod" "standard" "B" sC4b =
        (Except.error CheckoutErr.emptyCart, sC4b) :=
  ⟨(empty_cart_checkout_rejected catC4 7 "cod" "standard" "B" sC4a).1 rfl,
   (empty_cart_checkout_rejected catC4 7 "cod" "standard" "B" sC4a).2.1 rfl,
   (empty_cart_checkout_rejected catC4 7 "cod" "standard" "B" sC4b).2.2 9 rfl rfl⟩

/-- C3: when some cart line requests more than the available stock (the
variant stock when a variant is selected, else the product stock),
CheckoutModel.create_order fails with the insufficient-stock error that
names the offending product with its available and requested quantities,
and the returned state is the input state: no order is created and no
stock is deducted for any line item. -/
theorem insufficient_stock_checkout_rejected (cat : Catalog) (userId : Nat)
    (pm dlv onum : String) (s : DbState)
    (hne : cart_items_for userId s ≠ [])
    (hex : ∃ it ∈ cart_items_for userId s,
      available_stock s.stocks it < (it.quantity : Int)) :
    ∃ it ∈ cart_items_for userId s,
      available_stock s.stocks it < (it.quantity : Int) ∧
      create_order cat userId pm dlv onum s =
        (Except.error (CheckoutErr.insufficientStock (cat.productName it.productId)
          (available_stock s.stocks it) it.quantity), s) := by
  have hfind : ((cart_items_for userId s).find?
      (fun it => decide (available_stock s.stocks it < (it.quantity : Int)))).isSome := by
    rw [List.find?_isSome]
    obtain ⟨it, hmem, hlt⟩ := hex
    exact ⟨it, hmem, by simpa using hlt⟩
  rcases hfd : (cart_items_for userId s).find?
      (fun it => decide (available_stock s.stocks it < (it.quantity : Int))) with _ | it
  · rw [hfd] at hfind
    simp at hfind
  · have hmem := List.mem_of_find?_eq_some hfd
    have hlt : available_stock s.stocks it < (it.quantity : Int) := by
      simpa using List.find?_some hfd
    refine ⟨it, hmem, hlt, ?_⟩
    unfold create_order
    rw [if_neg (by simpa [List.isEmpty_iff] using hne), hfd]

/-- Catalog fixture for the insufficient-stock witness. -/
def catC3 : Catalog :=
  { sellerOf := fun _ => 1, productName := fun _ => "Widget", productSku := fun _ => "S",
    variantName := fun _ => "V", variantValue := fun _ => "X", variantSku := fun _ => none }

/-- State fixture: cart 1 of user 1 requests five units of product 2, but
only three are in stock. -/
def sC3 : DbState :=
  { cartOf := fun _ => some 1, cartItems := [⟨1, 2, none, 5, 10⟩],
    stocks := { product := fun _ => 3, variant := fun _ => 0 },
    orders := [], orderItems := [], statusHistory := [], payments := [] }

/-- Witness for C3: the concrete under-stocked checkout returns the
insufficient-stock error naming the product, available 3, requested 5,
with the state untouched. -/
theorem insufficient_stock_checkout_rejected_witness :
    create_order catC3 1 "cod" "standard" "C" sC3 =
      (Except.error (CheckoutErr.insufficientStock "Widget" 3 5), sC3) := by
  obtain ⟨it, hmem, hlt, heq⟩ :=
    insufficient_stock_checkout_rejected catC3 1 "cod" "standard" "C" sC3
      (by decide) ⟨⟨1, 2, none, 5, 10⟩, by decide, by decide⟩
  have : it = ⟨1, 2, none, 5, 10⟩ := by
    simpa [cart_items_for, sC3] using hmem
  subst this
  exact heq

/-- Stock fixture for the overselling demonstration: one unit of product 1. -/
def stC5 : Stocks := { product := fun _ => 1, variant := fun _ => 0 }

/-- Line item fixture requesting one unit of product 1. -/
def itC5 : CartItem := ⟨1, 1, none, 1, 10⟩

/-- C5: the deduction of CheckoutModel.create_order is an unconditional
decrement separate from the availability check, not a single conditional
update guarded by stock >= quantity: against the same one-unit state the
availability check passes (twice, as it would for two interleaved
checkouts that both read before either writes), yet applying the
unconditional decrement twice drives the stock to minus one. -/
theorem unconditional_deduct_oversells :
    ¬(available_stock stC5 itC5 < (itC5.quantity : Int))
    ∧ (deduct_stock_item (deduct_stock_item stC5 itC5) itC5).product 1 = -1 := by
  decide

/-- Helper: filtering a list for a cart id after all items of that cart id
have been deleted yields nothing. -/
lemma filter_eq_filter_ne_nil (l : List CartItem) (cid : Nat) :
    (l.filter (fun ci => decide (ci.cartId ≠ cid))).filter
      (fun ci => decide (ci.cartId = cid)) = [] := by
  induction l with
  | nil => rfl
  | cons a t ih =>
      by_cases hc : a.cartId = cid <;> simp [List.filter_cons, hc, ih]

/-- C1 (amended): CheckoutModel.create_order is transactional: every
failure returns the database unchanged, and a success commits, in one
step, the inventory deduction for every line item, the order row, one
order-item row per line item, the initial pending status-history row
(written by the stored procedure), the initial pending
payment-transaction row, and the deletion of the cart items.  The
process_checkout route commits its order, order-item, history and
cart-deletion writes in one transaction as well, but it never touches the
stock columns and never inserts a payment-transaction row. -/
theorem checkout_transactional :
    (∀ (cat : Catalog) (userId : Nat) (pm dlv onum : String) (s : DbState)
        (r : Except CheckoutErr CreateOrderOk) (s' : DbState),
        create_order cat userId pm dlv onum s = (r, s') →
        (∀ e, r = Except.error e → s' = s)
        ∧ ∀ ok, r = Except.ok ok →
            s'.stocks = deduct_stock s.stocks (cart_items_for userId s)
            ∧ (∃ row : OrderRow, s'.orders = s.orders ++ [row] ∧
                row.status = "pending" ∧ row.paymentStatus = "pending" ∧
                row.id = ok.orderId)
            ∧ s'.orderItems = s.orderItems ++
                (cart_items_for userId s).map (mk_order_item_model cat ok.orderId)
            ∧ s'.statusHistory = s.statusHistory ++
                [{ orderId := ok.orderId, status := "pending", notes := "Order created",
                   createdBy := none }]
            ∧ (∃ p : PaymentRow, s'.payments = s.payments ++ [p] ∧
                p.status = "pending" ∧ p.orderId = ok.orderId ∧ p.amount = ok.total)
            ∧ cart_items_for userId s' = [])
    ∧ (∀ (cat : Catalog) (userId : Nat) (pm dlv onum : String) (s : DbState)
        (r : Except CheckoutErr ProcessOk) (s' : DbState),
        process_checkout cat userId pm dlv onum s = (r, s') →
        s'.stocks = s.stocks ∧ s'.payments = s.payments) := by
  constructor
  · intro cat userId pm dlv onum s r s' h
    unfold create_order at h
    dsimp only at h
    split_ifs at h with hempty
    · rw [Prod.mk.injEq] at h
      obtain ⟨hr, hs⟩ := h
      subst hr
      subst hs
      exact ⟨fun e _ => rfl, fun ok hok => by simp at hok⟩
    · rcases hfd : (cart_items_for userId s).find?
          (fun it => decide (available_stock s.stocks it < (it.quantity : Int))) with _ | it <;>
        rw [hfd] at h
      · rw [Prod.mk.injEq] at h
        obtain ⟨hr, hs⟩ := h
        subst hr
        subst hs
        refine ⟨fun e he => by simp at he, fun ok hok => ?_⟩
        obtain rfl : _ = ok := Except.ok.inj hok
        refine ⟨rfl, ⟨_, rfl, rfl, rfl, rfl⟩, rfl, rfl, ⟨_, rfl, rfl, rfl, rfl⟩, ?_⟩
        rcases hc : s.cartOf userId with _ | cid
        · simp [cart_items_for, hc]
        · simp only [cart_items_for, hc]
          exact filter_eq_filter_ne_nil s.cartItems cid
      · rw [Prod.mk.injEq] at h
        obtain ⟨hr, hs⟩ := h
        subst hr
        subst hs
        exact ⟨fun e _ => rfl, fun ok hok => by simp at hok⟩
  · intro cat userId pm dlv onum s r s' h
    unfold process_checkout at h
    rcases hc : s.cartOf userId with _ | cid <;> rw [hc] at h <;> dsimp only at h
    · rw [Prod.mk.injEq] at h
      obtain ⟨hr, hs⟩ := h
      subst hs
      exact ⟨rfl, rfl⟩
    · split_ifs at h with hempty <;>
        (rw [Prod.mk.injEq] at h
         obtain ⟨hr, hs⟩ := h
         subst hs) <;>
        exact ⟨rfl, rfl⟩

/-- Catalog fixture for the checkout counterexample and witness. -/
def catC1 : Catalog :=
  { sellerOf := fun _ => 1, productName := fun _ => "P", productSku := fun _ => "S",
    variantName := fun _ => "V", variantValue := fun _ => "X", variantSku := fun _ => none }

/-- State fixture: user 1 owns cart 1 holding two units of product 2 at
100.00, and product 2 has ten units in stock. -/
def sC1 : DbState :=
  { cartOf := fun _ => some 1, cartItems := [⟨1, 2, none, 2, 100⟩],
    stocks := { product := fun _ => 10, variant := fun _ => 0 },
    orders := [], orderItems := [], statusHistory := [], payments := [] }

/-- C1 counterexample: a concrete successful run of the mounted
process_checkout route.  The checkout succeeds, yet the stock columns are
bit-for-bit unchanged (the two ordered units of product 2 are never
deducted) and the payment_transactions table stays empty (no initial
pending payment-transaction row), so not all of the effects the claim
lists occur in the checkout transaction. -/
theorem process_checkout_missing_effects :
    (process_checkout catC1 1 "cod" "standard" "D" sC1).1.isOk = true
    ∧ (process_checkout catC1 1 "cod" "standard" "D" sC1).2.stocks = sC1.stocks
    ∧ (process_checkout catC1 1 "cod" "standard" "D" sC1).2.payments = []
    ∧ sC1.cartItems = [⟨1, 2, none, 2, 100⟩]
    ∧ sC1.stocks.product 2 = 10 :=
  ⟨rfl, rfl, rfl, rfl, rfl⟩

/-- Run of CheckoutModel.create_order on the witness fixture. -/
def createC1 : Except CheckoutErr CreateOrderOk × DbState :=
  create_order catC1 1 "cod" "standard" "E" sC1

/-- Success payload of the fixture run, extracted from the run itself. -/
def okC1 : CreateOrderOk := createC1.1.toOption.get (by rfl)

/-- Witness for C1 (amended): the fixture run of CheckoutModel.create_order
succeeds, its committed state carries the deducted stock (ten minus the
two ordered units of product 2) and an empty cart. -/
theorem checkout_transactional_witness :
    createC1.1 = Except.ok okC1
    ∧ createC1.2.stocks = deduct_stock sC1.stocks (cart_items_for 1 sC1)
    ∧ createC1.2.stocks.product 2 = 8
    ∧ cart_items_for 1 createC1.2 = [] := by
  have h := (checkout_transactional.1 catC1 1 "cod" "standard" "E" sC1
      createC1.1 createC1.2 rfl).2 okC1 rfl
  refine ⟨rfl, h.1, ?_, h.2.2.2.2.2⟩
  rw [h.1]
  decide

/-- Total ordered quantity of a list of cart items. -/
def sumQtyC (l : List CartItem) : Int :=
  (l.map (fun it => (it.quantity : Int))).sum

/-- Total ordered quantity of a list of order-item rows. -/
def sumQtyR (l : List OrderItemRow) : Int :=
  (l.map (fun oi => (oi.quantity : Int))).sum

/-- Helper: effect of the checkout stock-update loop on one product row:
it loses the quantities of the no-variant items for that product. -/
lemma deduct_stock_product (items : List CartItem) (st : Stocks) (p : Nat) :
    (deduct_stock st items).product p =
      st.product p -
        sumQtyC (items.filter
          (fun it => decide (it.variantId = none) && decide (it.productId = p))) := by
  induction items generalizing st with
  | nil => simp [deduct_stock, sumQtyC]
  | cons a t ih =>
      have step : deduct_stock st (a :: t) = deduct_stock (deduct_stock_item st a) t := rfl
      rw [step, ih]
      rcases hv : a.variantId with _ | v
      · by_cases hp : a.productId = p
        · simp [deduct_stock_item, hv, hp, sumQtyC, List.filter_cons]
          omega
        · have hp' : ¬ p = a.productId := fun hh => hp hh.symm
          simp [deduct_stock_item, hv, hp, hp', sumQtyC, List.filter_cons]
      · simp [deduct_stock_item, hv, sumQtyC, List.filter_cons]

/-- Helper: effect of the checkout stock-update loop on one variant row:
it loses the quantities of the items selecting that variant. -/
lemma deduct_stock_variant (items : List CartItem) (st : Stocks) (v : Nat) :
    (deduct_stock st items).variant v =
      st.variant v -
        sumQtyC (items.filter (fun it => decide (it.variantId = some v))) := by
  induction items generalizing st with
  | nil => simp [deduct_stock, sumQtyC]
  | cons a t ih =>
      have step : deduct_stock st (a :: t) = deduct_stock (deduct_stock_item st a) t := rfl
      rw [step, ih]
      rcases hv : a.variantId with _ | w
      · simp [deduct_stock_item, hv, sumQtyC, List.filter_cons]
      · by_cases hw : w = v
        · subst hw
          simp [deduct_stock_item, hv, sumQtyC, List.filter_cons]
          omega
        · have hw' : ¬ v = w := fun hh => hw hh.symm
          simp [deduct_stock_item, hv, hw, hw', sumQtyC, List.filter_cons]

/-- Helper: the product-restoring UPDATE adds, to one product row, the
quantities of that seller-and-product rows; it never touches variants. -/
lemma restore_products_pass_product (cat : Catalog) (sid : Nat)
    (rows : List OrderItemRow) (st : Stocks) (p : Nat) :
    (restore_products_pass cat sid rows st).product p =
      st.product p +
        sumQtyR (rows.filter
          (fun oi => decide (cat.sellerOf oi.productId = sid) && decide (oi.productId = p))) := by
  induction rows generalizing st with
  | nil => simp [restore_products_pass, sumQtyR]
  | cons a t ih =>
      have step : restore_products_pass cat sid (a :: t) st =
          restore_products_pass cat sid t
            (if cat.sellerOf a.productId = sid then
              { st with product := fun q =>
                  if q = a.productId then st.product q + (a.quantity : Int) else st.product q }
            else st) := rfl
      rw [step, ih]
      by_cases hs : cat.sellerOf a.productId = sid
      · by_cases hp : a.productId = p
        · rw [hp] at hs
          simp [hs, hp, sumQtyR, List.filter_cons]
          omega
        · have hp' : ¬ p = a.productId := fun hh => hp hh.symm
          simp [hs, hp, hp', sumQtyR, List.filter_cons]
      · simp [hs, sumQtyR, List.filter_cons]

/-- Helper: the product-restoring UPDATE leaves every variant row alone. -/
lemma restore_products_pass_variant (cat : Catalog) (sid : Nat)
    (rows : List OrderItemRow) (st : Stocks) (v : Nat) :
    (restore_products_pass cat sid rows st).variant v = st.variant v := by
  induction rows generalizing st with
  | nil => rfl
  | cons a t ih =>
      have step : restore_products_pass cat sid (a :: t) st =
          restore_products_pass cat sid t
            (if cat.sellerOf a.productId = sid then
              { st with product := fun q =>
                  if q = a.productId then st.product q + (a.quantity : Int) else st.product q }
            else st) := rfl
      rw [step, ih]
      by_cases hs : cat.sellerOf a.productId = sid <;> simp [hs]

/-- Helper: the variant-restoring UPDATE adds, to one variant row, the
quantities of that seller rows selecting the variant. -/
lemma restore_variants_pass_variant (cat : Catalog) (sid : Nat)
    (rows : List OrderItemRow) (st : Stocks) (v : Nat) :
    (restore_variants_pass cat sid rows st).variant v =
      st.variant v +
        sumQtyR (rows.filter
          (fun oi => decide (oi.variantId = some v) && decide (cat.sellerOf oi.productId = sid))) := by
  induction rows generalizing st with
  | nil => simp [restore_variants_pass, sumQtyR]
  | cons a t ih =>
      rcases hw : a.variantId with _ | w
      · have step : restore_variants_pass cat sid (a :: t) st =
            restore_variants_pass cat sid t st := by
          simp [restore_variants_pass, List.foldl_cons, hw]
        rw [step, ih]
        simp [hw, sumQtyR, List.filter_cons]
      · have step : restore_variants_pass cat sid (a :: t) st =
            restore_variants_pass cat sid t
              (if cat.sellerOf a.productId = sid then
                { st with variant := fun q =>
                    if q = w then st.variant q + (a.quantity : Int) else st.variant q }
              else st) := by
          simp [restore_variants_pass, List.foldl_cons, hw]
        rw [step, ih]
        by_cases hs : cat.sellerOf a.productId = sid
        · by_cases hv : w = v
          · subst hv
            simp [hs, hw, sumQtyR, List.filter_cons]
            omega
          · have hv' : ¬ v = w := fun hh => hv hh.symm
            simp [hs, hw, hv, hv', sumQtyR, List.filter_cons]
        · simp [hs, hw, sumQtyR, List.filter_cons]

/-- Helper: the variant-restoring UPDATE leaves every product row alone. -/
lemma restore_variants_pass_product (cat : Catalog) (sid : Nat)
    (rows : List OrderItemRow) (st : Stocks) (p : Nat) :
    (restore_variants_pass cat sid rows st).product p = st.product p := by
  induction rows generalizing st with
  | nil => rfl
  | cons a t ih =>
      rcases hw : a.variantId with _ | w
      · have step : restore_variants_pass cat sid (a :: t) st =
            restore_variants_pass cat sid t st := by
          simp [restore_variants_pass, List.foldl_cons, hw]
        rw [step, ih]
      · have step : restore_variants_pass cat sid (a :: t) st =
            restore_variants_pass cat sid t
              (if cat.sellerOf a.productId = sid then
                { st with variant := fun q =>
                    if q = w then st.variant q + (a.quantity : Int) else st.variant q }
              else st) := by
          simp [restore_variants_pass, List.foldl_cons, hw]
        rw [step, ih]
        by_cases hs : cat.sellerOf a.productId = sid <;> simp [hs]

/-- Helper: in a list whose key images are pairwise distinct, a filter
whose predicate forces the key of a chosen member keeps at most that
member. -/
lemma filter_key_nodup {α β : Type} (f : α → β) (l : List α)
    (hnd : (l.map f).Nodup) (a : α) (ha : a ∈ l) (q : α → Bool)
    (himp : ∀ x ∈ l, q x = true → f x = f a) :
    l.filter q = if q a then [a] else [] := by
  induction l with
  | nil => cases ha
  | cons b t ih =>
      simp only [List.map_cons, List.nodup_cons] at hnd
      obtain ⟨hbf, hndt⟩ := hnd
      rcases List.mem_cons.mp ha with rfl | hat
      · have ht : t.filter q = [] := by
          rw [List.filter_eq_nil_iff]
          intro x hx hqx
          exact hbf (himp x (List.mem_cons_of_mem _ hx) hqx ▸ List.mem_map_of_mem f hx)
        rw [List.filter_cons]
        by_cases hqa : q a = true <;> simp [hqa, ht]
      · have hqb : ¬ q b = true := by
          intro hqb
          have hfb : f b = f a := himp b (List.mem_cons_self _ _) hqb
          exact hbf (hfb ▸ List.mem_map_of_mem f hat)
        rw [List.filter_cons, if_neg hqb]
        exact ih hndt hat (fun x hx hqx => himp x (List.mem_cons_of_mem _ hx) hqx)

/-- Helper: same as filter_key_nodup for an optional key, assuming only
that the present key values are pairwise distinct. -/
lemma filter_optkey_nodup {α β : Type} (f : α → Option β) (l : List α)
    (hnd : (l.filterMap f).Nodup) (a : α) (ha : a ∈ l) (v : β) (hav : f a = some v)
    (q : α → Bool) (himp : ∀ x ∈ l, q x = true → f x = some v) :
    l.filter q = if q a then [a] else [] := by
  induction l with
  | nil => cases ha
  | cons b t ih =>
      rcases hb : f b with _ | w
      · rw [List.filterMap_cons_none hb] at hnd
        have hab : a ≠ b := fun hh => by rw [hh, hb] at hav; cases hav
        have hat : a ∈ t := (List.mem_cons.mp ha).resolve_left hab
        have hqb : ¬ q b = true := by
          intro hqb
          have := himp b (List.mem_cons_self _ _) hqb
          rw [hb] at this
          cases this
        rw [List.filter_cons, if_neg hqb]
        exact ih hnd hat (fun x hx hqx => himp x (List.mem_cons_of_mem _ hx) hqx)
      · rw [List.filterMap_cons_some hb] at hnd
        simp only [List.nodup_cons] at hnd
        obtain ⟨hwt, hndt⟩ := hnd
        rcases List.mem_cons.mp ha with rfl | hat
        · have ht : t.filter q = [] := by
            rw [List.filter_eq_nil_iff]
            intro x hx hqx
            have hfx : f x = some v := himp x (List.mem_cons_of_mem _ hx) hqx
            rw [hav] at hb
            exact hwt (by
              rw [List.mem_filterMap]
              exact ⟨x, hx, by rw [hfx, ← hb]⟩)
          rw [List.filter_cons]
          by_cases hqa : q a = true <;> simp [hqa, ht]
        · have hqb : ¬ q b = true := by
            intro hqb
            have hfb : f b = some v := himp b (List.mem_cons_self _ _) hqb
            rw [hb] at hfb
            obtain rfl : w = v := by injection hfb
            exact hwt (by
              rw [List.mem_filterMap]
              exact ⟨a, hat, hav⟩)
          rw [List.filter_cons, if_neg hqb]
          exact ih hndt hat (fun x hx hqx => himp x (List.mem_cons_of_mem _ hx) hqx)

/-- Helper: the order-item snapshot keeps the product id, variant id and
quantity of the cart item, so row quantity sums equal item quantity sums. -/
lemma sumQtyR_map_mk (cat : Catalog) (oid : Nat) (l : List CartItem) :
    sumQtyR (l.map (mk_order_item_model cat oid)) = sumQtyC l := by
  induction l with
  | nil => rfl
  | cons a t ih => simp [sumQtyR, sumQtyC, mk_order_item_model] at ih ⊢; omega

/-- C10 (amended): after the checkout deduction and the seller-scoped
cancellation restore, with pairwise distinct product ids and variant ids
among the line items: for a line item of the cancelling seller the
implicated variant row returns exactly to its pre-checkout count but the
parent product row gains the item quantity, a no-variant item of the
cancelling seller returns exactly to its pre-checkout count, and the rows
implicated by line items of any other seller remain deducted and are not
restored. -/
theorem restore_reverses_deduct_seller_scoped (cat : Catalog) (sid oid : Nat)
    (st : Stocks) (items : List CartItem)
    (hp : (items.map (fun it => it.productId)).Nodup)
    (hv : (items.filterMap (fun it => it.variantId)).Nodup) :
    ∀ it ∈ items,
      (cat.sellerOf it.productId = sid →
        (∀ v, it.variantId = some v →
          (restore_rows cat sid (items.map (mk_order_item_model cat oid))
              (deduct_stock st items)).variant v = st.variant v
          ∧ (restore_rows cat sid (items.map (mk_order_item_model cat oid))
              (deduct_stock st items)).product it.productId =
              st.product it.productId + (it.quantity : Int))
        ∧ (it.variantId = none →
          (restore_rows cat sid (items.map (mk_order_item_model cat oid))
              (deduct_stock st items)).product it.productId =
              st.product it.productId))
      ∧ (cat.sellerOf it.productId ≠ sid →
        (∀ v, it.variantId = some v →
          (restore_rows cat sid (items.map (mk_order_item_model cat oid))
              (deduct_stock st items)).variant v =
              st.variant v - (it.quantity : Int))
        ∧ (it.variantId = none →
          (restore_rows cat sid (items.map (mk_order_item_model cat oid))
              (deduct_stock st items)).product it.productId =
              st.product it.productId - (it.quantity : Int))) := by
  intro it hit
  have hprod : ∀ p,
      (restore_rows cat sid (items.map (mk_order_item_model cat oid))
          (deduct_stock st items)).product p =
        st.product p
          - sumQtyC (items.filter
              (fun x => decide (x.variantId = none) && decide (x.productId = p)))
          + sumQtyC (items.filter
              (fun x => decide (cat.sellerOf x.productId = sid) && decide (x.productId = p))) := by
    intro p
    rw [restore_rows, restore_variants_pass_product, restore_products_pass_product,
      deduct_stock_product]
    have hfm : (items.map (mk_order_item_model cat oid)).filter
        (fun oi => decide (cat.sellerOf oi.productId = sid) && decide (oi.productId = p)) =
        (items.filter
          (fun x => decide (cat.sellerOf x.productId = sid) && decide (x.productId = p))).map
          (mk_order_item_model cat oid) := by
      rw [List.filter_map]
      rfl
    rw [hfm, sumQtyR_map_mk]
  have hvar : ∀ v,
      (restore_rows cat sid (items.map (mk_order_item_model cat oid))
          (deduct_stock st items)).variant v =
        st.variant v
          - sumQtyC (items.filter (fun x => decide (x.variantId = some v)))
          + sumQtyC (items.filter
              (fun x => decide (x.variantId = some v) && decide (cat.sellerOf x.productId = sid))) := by
    intro v
    rw [restore_rows, restore_variants_pass_variant, restore_products_pass_variant,
      deduct_stock_variant]
    have hfm : (items.map (mk_order_item_model cat oid)).filter
        (fun oi => decide (oi.variantId = some v) && decide (cat.sellerOf oi.productId = sid)) =
        (items.filter
          (fun x => decide (x.variantId = some v) && decide (cat.sellerOf x.productId = sid))).map
          (mk_order_item_model cat oid) := by
      rw [List.filter_map]
      rfl
    rw [hfm, sumQtyR_map_mk]
  constructor
  · intro hsid
    constructor
    · intro v hvit
      constructor
      · rw [hvar v]
        rw [filter_optkey_nodup (fun x => x.variantId) items hv it hit v hvit
              (fun x => decide (x.variantId = some v)) (by intro x _ hx; simpa using hx),
            filter_optkey_nodup (fun x => x.variantId) items hv it hit v hvit
              (fun x => decide (x.variantId = some v) && decide (cat.sellerOf x.productId = sid))
              (by intro x _ hx; simp at hx; simp [hx.1])]
        simp [hvit, hsid, sumQtyC]
      · rw [hprod it.productId]
        rw [filter_key_nodup (fun x => x.productId) items hp it hit
              (fun x => decide (x.variantId = none) && decide (x.productId = it.productId))
              (by intro x _ hx; simp at hx; simp [hx.2]),
            filter_key_nodup (fun x => x.productId) items hp it hit
              (fun x => decide (cat.sellerOf x.productId = sid) && decide (x.productId = it.productId))
              (by intro x _ hx; simp at hx; simp [hx.2])]
        simp [hvit, hsid, sumQtyC]
    · intro hvit
      rw [hprod it.productId]
      rw [filter_key_nodup (fun x => x.productId) items hp it hit
            (fun x => decide (x.variantId = none) && decide (x.productId = it.productId))
            (by intro x _ hx; simp at hx; simp [hx.2]),
          filter_key_nodup (fun x => x.productId) items hp it hit
            (fun x => decide (cat.sellerOf x.productId = sid) && decide (x.productId = it.productId))
            (by intro x _ hx; simp at hx; simp [hx.2])]
      simp [hvit, hsid, sumQtyC]
  · intro hsid
    constructor
    · intro v hvit
      rw [hvar v]
      rw [filter_optkey_nodup (fun x => x.variantId) items hv it hit v hvit
            (fun x => decide (x.variantId = some v)) (by intro x _ hx; simpa using hx),
          filter_optkey_nodup (fun x => x.variantId) items hv it hit v hvit
            (fun x => decide (x.variantId = some v) && decide (cat.sellerOf x.productId = sid))
            (by intro x _ hx; simp at hx; simp [hx.1])]
      simp [hvit, hsid, sumQtyC]
    · intro hvit
      rw [hprod it.productId]
      rw [filter_key_nodup (fun x => x.productId) items hp it hit
            (fun x => decide (x.variantId = none) && decide (x.productId = it.productId))
            (by intro x _ hx; simp at hx; simp [hx.2]),
          filter_key_nodup (fun x => x.productId) items hp it hit
            (fun x => decide (cat.sellerOf x.productId = sid) && decide (x.productId = it.productId))
            (by intro x _ hx; simp at hx; simp [hx.2])]
      simp [hvit, hsid, sumQtyC]

/-- Catalog fixture for the restore counterexample: product 3 belongs to
seller 2, every other product to seller 1. -/
def catC10 : Catalog :=
  { sellerOf := fun p => if p = 3 then 2 else 1,
    productName := fun _ => "P", productSku := fun _ => "S",
    variantName := fun _ => "V", variantValue := fun _ => "X",
    variantSku := fun _ => none }

/-- Cart line fixture: two units of product 1 through variant 7. -/
def itC10a : CartItem := ⟨1, 1, some 7, 2, 10⟩

/-- Cart line fixture: three units of product 3 (seller 2), no variant. -/
def itC10b : CartItem := ⟨1, 3, none, 3, 10⟩

/-- Stock fixture before the checkout: product 1 has 10, product 3 has 7,
variant 7 has 5. -/
def stC10 : Stocks :=
  { product := fun p => if p = 1 then 10 else 7, variant := fun _ => 5 }

/-- Database fixture after checking out both lines as order 1: stocks are
the checkout deduction of the pre-checkout stocks and the order-item rows
are the snapshots of the two cart lines. -/
def sC10 : DbState :=
  { cartOf := fun _ => none, cartItems := [],
    stocks := deduct_stock stC10 [itC10a, itC10b],
    orders := [], statusHistory := [], payments := [],
    orderItems := [mk_order_item_model catC10 1 itC10a, mk_order_item_model catC10 1 itC10b] }

/-- C10 counterexample: order 1 (two line items, two sellers) is checked
out and then cancelled by seller 1.  The restore does not reverse the
deduction: the variant row of the seller-1 item does return to 5, but its
parent product row moves from 10 to 12 (the restore also credits the
product row of a variant-deducted item), and the seller-2 line item stays
deducted at 4 instead of returning to its pre-checkout count 7. -/
theorem restore_not_exact_reversal :
    (restore_inventory_for_order catC10 1 1 sC10).stocks.variant 7 = 5
    ∧ stC10.variant 7 = 5
    ∧ (restore_inventory_for_order catC10 1 1 sC10).stocks.product 1 = 12
    ∧ stC10.product 1 = 10
    ∧ (restore_inventory_for_order catC10 1 1 sC10).stocks.product 3 = 4
    ∧ stC10.product 3 = 7 := by
  decide

/-- Witness for C10 (amended): at the two-item fixture, the implicated
variant row of the cancelling seller is restored exactly, its parent
product row gains the quantity, and the other seller row stays deducted. -/
theorem restore_reverses_deduct_seller_scoped_witness :
    (restore_rows catC10 1 ([itC10a, itC10b].map (mk_order_item_model catC10 1))
        (deduct_stock stC10 [itC10a, itC10b])).variant 7 = stC10.variant 7
    ∧ (restore_rows catC10 1 ([itC10a, itC10b].map (mk_order_item_model catC10 1))
        (deduct_stock stC10 [itC10a, itC10b])).product itC10a.productId =
        stC10.product itC10a.productId + (itC10a.quantity : Int)
    ∧ (restore_rows catC10 1 ([itC10a, itC10b].map (mk_order_item_model catC10 1))
        (deduct_stock stC10 [itC10a, itC10b])).product itC10b.productId =
        stC10.product itC10b.productId - (itC10b.quantity : Int) := by
  have h := restore_reverses_deduct_seller_scoped catC10 1 1 stC10 [itC10a, itC10b]
    (by decide) (by decide)
  refine ⟨((h itC10a (by decide)).1 (by decide)).1 7 rfl |>.1,
          ((h itC10a (by decide)).1 (by decide)).1 7 rfl |>.2,
          (h itC10b (by decide)).2 (by decide) |>.2 rfl⟩
